import Mathlib

/-!
Verification of the spi-test kernel driver (drivers/spi/spi-test.c,
richer revision).  The development shallowly embeds the driver's core:
the symbolic address translator, the tx fill-pattern generator, the
loopback result checker, the expected-return result handling, the
per-iteration patching, the iteration driver and the catalog walk.

Modelling conventions:
  * pointers are natural-number addresses, 0 standing for NULL;
  * machine bytes are naturals reduced mod 256 at each u8 store;
  * error codes are integers, mirroring the kernel's -Exxx returns;
  * buffer mutation is modelled by the ordered trace of (address, byte)
    writes an execution performs;
  * the external transport (spi_sync / a custom test hook) is an
    oracle parameter returning the message's completion code.
-/

/-- PAGE_SIZE of the reference platform (4 KiB pages). -/
def PAGE_SIZE : Nat := 4096

def SPI_TEST_MAX_TRANSFERS : Nat := 4

def SPI_TEST_MAX_SIZE : Nat := 32 * PAGE_SIZE

def SPI_TEST_MAX_ITERATE : Nat := 12

/-- One page of extra slack, to allow for offsets (SPI_TEST_MAX_SIZE_PLUS). -/
def SPI_TEST_MAX_SIZE_PLUS : Nat := SPI_TEST_MAX_SIZE + PAGE_SIZE

/-- Base of the symbolic RX region, BIT(30). -/
def RX_START : Nat := 2 ^ 30

/-- Base of the symbolic TX region, BIT(31). -/
def TX_START : Nat := 2 ^ 31

def EINVAL : Int := 22
def E2BIG : Int := 7
def EFAULT : Int := 14

/-- spi_test_translate: rewrite a placeholder pointer into the rx or tx
backing buffer.  NULL stays NULL with success; a pointer whose whole
[ptr, ptr+len) range sits inside the symbolic RX (resp. TX) window is
rebased onto rx (resp. tx); anything else is -EINVAL. -/
def spi_test_translate (ptr len tx rx : Nat) : Except Int Nat :=
  if ptr = 0 then
    .ok 0
  else if RX_START ≤ ptr ∧ ptr + len ≤ RX_START + SPI_TEST_MAX_SIZE_PLUS then
    .ok (rx + (ptr - RX_START))
  else if TX_START ≤ ptr ∧ ptr + len ≤ TX_START + SPI_TEST_MAX_SIZE_PLUS then
    .ok (tx + (ptr - TX_START))
  else
    .error (-EINVAL)

/-- One spi_transfer as the driver configures it: a length and the two
buffer pointers (0 plays the role of NULL). -/
structure SpiTransfer where
  len : Nat
  tx_buf : Nat
  rx_buf : Nat
deriving DecidableEq

/-- GET_VALUE_BYTE(value, index, bytes) on a little-endian build:
value >> (8 * (count % bytes)).  The macro captures the ambient count
variable for the slice selection, so the index argument is unused. -/
def get_value_byte (value count bytes : Nat) : Nat :=
  value >>> (8 * (count % bytes))

/-- The switch body of spi_test_fill_tx for one byte: cnt is the running
byte counter, j the intra-transfer byte index, i the transfer index.
Each u8 store truncates mod 256.  Unknown fill options yield none. -/
def fill_byte (opt fillv cnt j i : Nat) : Option Nat :=
  match opt with
  | 0 => some (fillv % 256)
  | 1 => some (get_value_byte fillv cnt 2 % 256)
  | 2 => some (get_value_byte fillv cnt 3 % 256)
  | 3 => some (get_value_byte fillv cnt 4 % 256)
  | 4 => some (cnt % 256)
  | 5 => some (get_value_byte cnt cnt 2 % 256)
  | 6 => some (get_value_byte cnt cnt 3 % 256)
  | 7 => some (get_value_byte cnt cnt 4 % 256)
  | 8 => some (j % 256)
  | 9 => some (get_value_byte j cnt 2 % 256)
  | 10 => some (get_value_byte j cnt 3 % 256)
  | 11 => some (get_value_byte j cnt 4 % 256)
  | 16 => some (i % 256)
  | _ => none

/-- The inner byte loop of spi_test_fill_tx over one transfer, as the
ordered (address, byte) write trace.  rem counts the remaining bytes
(the loop runs for j = 0 .. len-1). -/
def fill_xfer_writes (opt fillv i addr j cnt rem : Nat) :
    Option (List (Nat × Nat)) :=
  match rem with
  | 0 => some []
  | r + 1 =>
    match fill_byte opt fillv cnt j i with
    | none => none
    | some b =>
      match fill_xfer_writes opt fillv i (addr + 1) (j + 1) (cnt + 1) r with
      | none => none
      | some tr => some ((addr, b) :: tr)

/-- Total number of bytes the fill pass writes: transfers with a NULL
tx_buf are skipped by the continue and contribute nothing. -/
def tx_total : List SpiTransfer → Nat
  | [] => 0
  | x :: xs => (if x.tx_buf = 0 then 0 else x.len) + tx_total xs

/-- The outer transfer loop of spi_test_fill_tx: i is the transfer index
(advanced for skipped transfers too), cnt the running byte counter
(advanced only for bytes actually written).  An unsupported fill option
aborts with -EINVAL. -/
def spi_test_fill_tx_go (opt fillv i cnt : Nat) :
    List SpiTransfer → Except Int (List (Nat × Nat))
  | [] => .ok []
  | x :: xs =>
    if x.tx_buf = 0 then
      spi_test_fill_tx_go opt fillv (i + 1) cnt xs
    else
      match fill_xfer_writes opt fillv i x.tx_buf 0 cnt x.len with
      | none => .error (-EINVAL)
      | some tr =>
        match spi_test_fill_tx_go opt fillv (i + 1) (cnt + x.len) xs with
        | .error e => .error e
        | .ok rest => .ok (tr ++ rest)

/-- spi_test_fill_tx over a transfer list, yielding the write trace. -/
def spi_test_fill_tx (opt fillv : Nat) (xfers : List SpiTransfer) :
    Except Int (List (Nat × Nat)) :=
  spi_test_fill_tx_go opt fillv 0 0 xfers

/-- Byte value of the FILL_COUNT_(8w) modes at running-counter value k:
the (k mod w)-th little-endian byte slice of k. -/
def countByte (w k : Nat) : Nat := get_value_byte k k w % 256

/-- Reference trace of a counter-mode fill over one transfer. -/
def countTrace (w addr cnt rem : Nat) : List (Nat × Nat) :=
  match rem with
  | 0 => []
  | r + 1 => (addr, countByte w cnt) :: countTrace w (addr + 1) (cnt + 1) r

/-- Reference trace of a counter-mode fill over a transfer list. -/
def countTraceXs (w cnt : Nat) : List SpiTransfer → List (Nat × Nat)
  | [] => []
  | x :: xs =>
    if x.tx_buf = 0 then countTraceXs w cnt xs
    else countTrace w x.tx_buf cnt x.len ++ countTraceXs w (cnt + x.len) xs

/-- Outcome of spi_test_check_loopback_result, carrying the data the
driver reports with its dev_err diagnostics: a transfer byte mismatch at
index i with expected value txb but got rxb, or an invalid idle level in
byte 0 of a pure-receive transfer.  Either case makes the function
return -EINVAL. -/
inductive LoopErr where
  | mismatch (i txb rxb : Nat)
  | badIdle (b : Nat)
deriving DecidableEq

/-- One transfer as the loopback checker consumes it: the declared
length and the byte contents behind tx_buf / rx_buf (none for NULL). -/
structure LoopXfer where
  len : Nat
  tx_data : Option (List Nat)
  rx_data : Option (List Nat)
deriving DecidableEq

/-- The tx/rx comparison loop (for i = 1; i < len; i++), rem counting
the remaining iterations. -/
def check_pair_from (tx rx : List Nat) (i rem : Nat) : Except LoopErr Unit :=
  match rem with
  | 0 => .ok ()
  | r + 1 =>
    if tx.getD i 0 ≠ rx.getD i 0 then
      .error (.mismatch i (tx.getD i 0) (rx.getD i 0))
    else
      check_pair_from tx rx (i + 1) r

/-- The pure-receive comparison loop: every byte from index 1 on must
equal txb, the idle value read from byte 0. -/
def check_rx_from (rx : List Nat) (txb i rem : Nat) : Except LoopErr Unit :=
  match rem with
  | 0 => .ok ()
  | r + 1 =>
    if rx.getD i 0 ≠ txb then
      .error (.mismatch i txb (rx.getD i 0))
    else
      check_rx_from rx txb (i + 1) r

/-- The per-transfer body of spi_test_check_loopback_result: no rx_buf
means nothing to check; with both buffers, bytes 1..len-1 must agree;
rx only, byte 0 must be 0x00 or 0xff and the rest must equal it. -/
def check_xfer (x : LoopXfer) : Except LoopErr Unit :=
  match x.rx_data with
  | none => .ok ()
  | some rx =>
    match x.tx_data with
    | some tx => check_pair_from tx rx 1 (x.len - 1)
    | none =>
      if rx.getD 0 0 = 0x00 ∨ rx.getD 0 0 = 0xff then
        check_rx_from rx (rx.getD 0 0) 1 (x.len - 1)
      else
        .error (.badIdle (rx.getD 0 0))

/-- spi_test_check_loopback_result over the transfers of a message,
stopping at the first failing transfer. -/
def spi_test_check_loopback_result : List LoopXfer → Except LoopErr Unit
  | [] => .ok ()
  | x :: xs =>
    match check_xfer x with
    | .ok _ => spi_test_check_loopback_result xs
    | .error e => .error e

/-- The result-handling tail of _spi_test_run: an execution result equal
to the declared expected_return is overall success; a differing non-zero
result is propagated verbatim; a differing zero result (unexpected
success) becomes -EFAULT. -/
def spi_test_handle_result (ret expected : Int) : Int :=
  if ret = expected then 0
  else if ret ≠ 0 then ret
  else -EFAULT

/-- One spi_test catalog entry.  The description string (used only for
logging and as the catalog sentinel) and the custom-test hook (folded
into the execute oracle below) are not represented. -/
structure SpiTest where
  iterate_len : List Nat
  iterate_tx_align : Nat
  iterate_rx_align : Nat
  expected_return : Int
  transfer_count : Nat
  transfers : List SpiTransfer
  fill : Nat
  fill_option : Nat
deriving DecidableEq

/-- The translation loop of _spi_test_run: patch tx_buf then rx_buf of
each transfer in order, aborting at the first failing translation. -/
def translate_transfers (txb rxb : Nat) :
    List SpiTransfer → Except Int (List SpiTransfer)
  | [] => .ok []
  | x :: xs =>
    match spi_test_translate x.tx_buf x.len txb rxb with
    | .error e => .error e
    | .ok t =>
      match spi_test_translate x.rx_buf x.len txb rxb with
      | .error e => .error e
      | .ok r =>
        match translate_transfers txb rxb xs with
        | .error e => .error e
        | .ok rest => .ok (⟨x.len, t, r⟩ :: rest)

/-- _spi_test_run: translate the first transfer_count transfers, fill
the tx buffers, hand the message to the execute oracle (spi_sync or the
custom test hook), and compare the outcome with expected_return.  The
second component is the trace of buffer writes the run performed. -/
def _spi_test_run (execute : List SpiTransfer → Int) (test : SpiTest)
    (txb rxb : Nat) : Int × List (Nat × Nat) :=
  match translate_transfers txb rxb (test.transfers.take test.transfer_count) with
  | .error e => (e, [])
  | .ok xs =>
    match spi_test_fill_tx test.fill_option test.fill xs with
    | .error e => (e, [])
    | .ok tr => (spi_test_handle_result (execute xs) test.expected_return, tr)

/-- The transfer_count fallback of spi_test_run_iter: count the leading
transfers (of the at most SPI_TEST_MAX_TRANSFERS slots) whose len is
non-zero. -/
def count_leading_len (xs : List SpiTransfer) : Nat :=
  ((xs.take SPI_TEST_MAX_TRANSFERS).takeWhile (fun x => x.len != 0)).length

/-- The per-transfer patching step of spi_test_run_iter for a
non-default iteration point: len overrides the declared length when
non-zero; tx_off is added to a non-NULL tx_buf unconditionally; rx_off
is added to rx_buf when the (just patched) tx_buf is non-NULL — the
source tests tx_buf in both branches. -/
def patch_xfer (len tx_off rx_off : Nat) (x : SpiTransfer) : SpiTransfer :=
  let l := if len ≠ 0 then len else x.len
  let t := if x.tx_buf ≠ 0 then x.tx_buf + tx_off else x.tx_buf
  let r := if t ≠ 0 then x.rx_buf + rx_off else x.rx_buf
  ⟨l, t, r⟩

/-- spi_test_run_iter: copy the template, compute transfer_count when
not declared, skip (with success) offset iterations on cases without
the matching buffer direction, patch the working copy for a non-default
iteration point, and run it.  The C locals tx_count and rx_count are
never initialised; gtx and grx model their arbitrary garbage start
values. -/
def spi_test_run_iter (execute : List SpiTransfer → Int) (gtx grx : Nat)
    (template : SpiTest) (txb rxb len tx_off rx_off : Nat) :
    Int × List (Nat × Nat) :=
  let tc := if template.transfer_count = 0 then
      count_leading_len template.transfers
    else template.transfer_count
  let tx_count := gtx + (template.transfers.take tc).countP (fun x => x.tx_buf != 0)
  let rx_count := grx + (template.transfers.take tc).countP (fun x => x.rx_buf != 0)
  if tx_off ≠ 0 ∧ tx_count = 0 then (0, [])
  else if rx_off ≠ 0 ∧ rx_count = 0 then (0, [])
  else
    let xs := if len ≠ 0 ∨ tx_off ≠ 0 ∨ rx_off ≠ 0 then
        (template.transfers.take tc).map (patch_xfer len tx_off rx_off) ++
          template.transfers.drop tc
      else template.transfers
    _spi_test_run execute
      { template with transfer_count := tc, transfers := xs } txb rxb

/-- Values the FOR_EACH_ITERATE macro assigns: the default 0 first, then
each leading non-zero entry of the (at most SPI_TEST_MAX_ITERATE long)
configured list. -/
def iterate_values (arr : List Nat) : List Nat :=
  0 :: (arr.take SPI_TEST_MAX_ITERATE).takeWhile (fun v => v != 0)

/-- Values the FOR_EACH_ALIGNMENT macro assigns: every value from 0 up
to (exclusive) the controller's dma_alignment if non-zero, else the
configured alignment; an unconfigured axis (0) yields just 0. -/
def alignment_values (algn dma : Nat) : List Nat :=
  List.range (if algn ≠ 0 then (if dma ≠ 0 then dma else algn) else 1)

/-- The nested iteration loops of spi_test_run, linearised in their
execution order: length outermost, then tx alignment, then rx
alignment. -/
def iteration_points (dma : Nat) (t : SpiTest) : List (Nat × Nat × Nat) :=
  (iterate_values t.iterate_len).flatMap (fun len =>
    (alignment_values t.iterate_tx_align dma).flatMap (fun ta =>
      (alignment_values t.iterate_rx_align dma).map (fun ra => (len, ta, ra))))

/-- Sequential execution with abort on first non-zero return: the loop
shape shared by spi_test_run (over iteration points) and the catalog
walk of spi_test_probe (over test cases).  The second component
accumulates the buffer-write traces of the executed runs. -/
def run_points {α : Type} (runOne : α → Int × List (Nat × Nat)) :
    List α → Int × List (Nat × Nat)
  | [] => (0, [])
  | p :: ps =>
    if (runOne p).1 ≠ 0 then runOne p
    else ((run_points runOne ps).1, (runOne p).2 ++ (run_points runOne ps).2)

/-- One iteration point of spi_test_run, handed to spi_test_run_iter. -/
def spi_test_run_point (execute : List SpiTransfer → Int) (gtx grx : Nat)
    (t : SpiTest) (txb rxb : Nat) (p : Nat × Nat × Nat) :
    Int × List (Nat × Nat) :=
  spi_test_run_iter execute gtx grx t txb rxb p.1 p.2.1 p.2.2

/-- spi_test_run: reject templates declaring too many transfers with
-E2BIG before anything else, then run every iteration point in order,
aborting on the first error. -/
def spi_test_run (dma : Nat) (execute : List SpiTransfer → Int)
    (gtx grx : Nat) (t : SpiTest) (txb rxb : Nat) : Int × List (Nat × Nat) :=
  if SPI_TEST_MAX_TRANSFERS ≤ t.transfer_count then (-E2BIG, [])
  else
    run_points (spi_test_run_point execute gtx grx t txb rxb)
      (iteration_points dma t)

/-- The catalog walk of spi_test_probe: run the test cases in order,
stopping at the first failing one. -/
def spi_test_probe_run (dma : Nat) (execute : List SpiTransfer → Int)
    (gtx grx txb rxb : Nat) (tests : List SpiTest) : Int × List (Nat × Nat) :=
  run_points (fun t => spi_test_run dma execute gtx grx t txb rxb) tests

/-- C1: null placeholders translate to null with success; a placeholder at
offset off of the RX (resp. TX) region with off+len within the region size
is rewritten to the rx (resp. tx) base plus off; a range that sticks out
past the region end (even partially) is rejected with -EINVAL, never
clamped. -/
theorem c1_translate_spec (tx rx len off : Nat) :
    spi_test_translate 0 len tx rx = .ok 0 ∧
    (off + len ≤ SPI_TEST_MAX_SIZE_PLUS →
      spi_test_translate (RX_START + off) len tx rx = .ok (rx + off) ∧
      spi_test_translate (TX_START + off) len tx rx = .ok (tx + off)) ∧
    (off < SPI_TEST_MAX_SIZE_PLUS → SPI_TEST_MAX_SIZE_PLUS < off + len →
      spi_test_translate (RX_START + off) len tx rx = .error (-EINVAL) ∧
      spi_test_translate (TX_START + off) len tx rx = .error (-EINVAL)) := by
  refine ⟨by simp [spi_test_translate], ?_, ?_⟩
  · intro h
    constructor
    · have h1 : ¬ (RX_START + off = 0) := by
        simp [RX_START]
      have h2 : RX_START ≤ RX_START + off ∧
          RX_START + off + len ≤ RX_START + SPI_TEST_MAX_SIZE_PLUS := by
        constructor
        · exact Nat.le_add_right _ _
        · omega
      simp [spi_test_translate, h1, h2]
    · have h1 : ¬ (TX_START + off = 0) := by
        simp [TX_START]
      have h2 : ¬ (RX_START ≤ TX_START + off ∧
          TX_START + off + len ≤ RX_START + SPI_TEST_MAX_SIZE_PLUS) := by
        simp only [RX_START, TX_START, SPI_TEST_MAX_SIZE_PLUS,
          SPI_TEST_MAX_SIZE, PAGE_SIZE, not_and]
        omega
      have h3 : TX_START ≤ TX_START + off ∧
          TX_START + off + len ≤ TX_START + SPI_TEST_MAX_SIZE_PLUS := by
        constructor
        · exact Nat.le_add_right _ _
        · omega
      simp [spi_test_translate, h1, h2, h3]
  · intro hlo hhi
    constructor
    · have h1 : ¬ (RX_START + off = 0) := by
        simp [RX_START]
      have h2 : ¬ (RX_START ≤ RX_START + off ∧
          RX_START + off + len ≤ RX_START + SPI_TEST_MAX_SIZE_PLUS) := by
        simp only [not_and]
        omega
      have h3 : ¬ (TX_START ≤ RX_START + off ∧
          RX_START + off + len ≤ TX_START + SPI_TEST_MAX_SIZE_PLUS) := by
        simp only [RX_START, TX_START, SPI_TEST_MAX_SIZE_PLUS,
          SPI_TEST_MAX_SIZE, PAGE_SIZE, not_and] at *
        omega
      rw [spi_test_translate, if_neg h1, if_neg h2, if_neg h3]
    · have h1 : ¬ (TX_START + off = 0) := by
        simp [TX_START]
      have h2 : ¬ (RX_START ≤ TX_START + off ∧
          TX_START + off + len ≤ RX_START + SPI_TEST_MAX_SIZE_PLUS) := by
        simp only [RX_START, TX_START, SPI_TEST_MAX_SIZE_PLUS,
          SPI_TEST_MAX_SIZE, PAGE_SIZE, not_and]
        omega
      have h3 : ¬ (TX_START ≤ TX_START + off ∧
          TX_START + off + len ≤ TX_START + SPI_TEST_MAX_SIZE_PLUS) := by
        simp only [not_and]
        omega
      rw [spi_test_translate, if_neg h1, if_neg h2, if_neg h3]

/-- C1 witness: the three regimes of the translator at concrete inputs. -/
theorem c1_translate_spec_witness :
    spi_test_translate 0 7 100 200 = .ok 0 ∧
    spi_test_translate (RX_START + 8) 16 100 200 = .ok 208 ∧
    spi_test_translate (TX_START + 8) 16 100 200 = .ok 108 ∧
    spi_test_translate (RX_START + 135000) 1000 100 200 = .error (-EINVAL) ∧
    spi_test_translate (TX_START + 135000) 1000 100 200 = .error (-EINVAL) :=
  ⟨(c1_translate_spec 100 200 7 0).1,
   ((c1_translate_spec 100 200 16 8).2.1 (by decide)).1,
   ((c1_translate_spec 100 200 16 8).2.1 (by decide)).2,
   ((c1_translate_spec 100 200 1000 135000).2.2 (by decide) (by decide)).1,
   ((c1_translate_spec 100 200 1000 135000).2.2 (by decide) (by decide)).2⟩

theorem range'_split (m : Nat) : ∀ s n : Nat,
    List.range' s (m + n) = List.range' s m ++ List.range' (s + m) n := by
  induction m with
  | zero => intro s n; simp
  | succ k ih =>
    intro s n
    have h1 : k + 1 + n = (k + n) + 1 := by omega
    have h2 : s + (k + 1) = (s + 1) + k := by omega
    rw [h1, List.range'_succ, List.range'_succ, ih (s + 1) n, h2]
    simp

theorem fill_byte_count_mode (opt : Nat) (h1 : 4 ≤ opt) (h2 : opt ≤ 7)
    (fillv cnt j i : Nat) :
    fill_byte opt fillv cnt j i = some (countByte (opt - 3) cnt) := by
  interval_cases opt <;>
    simp [fill_byte, countByte, get_value_byte, Nat.mod_one]

theorem fill_xfer_writes_count (opt : Nat) (h1 : 4 ≤ opt) (h2 : opt ≤ 7)
    (fillv i : Nat) : ∀ rem addr j cnt,
    fill_xfer_writes opt fillv i addr j cnt rem =
      some (countTrace (opt - 3) addr cnt rem) := by
  intro rem
  induction rem with
  | zero => intro addr j cnt; rfl
  | succ r ih =>
    intro addr j cnt
    simp [fill_xfer_writes, countTrace, fill_byte_count_mode opt h1 h2, ih]

theorem countTrace_snd (w : Nat) : ∀ rem addr cnt,
    (countTrace w addr cnt rem).map Prod.snd =
      (List.range' cnt rem).map (countByte w) := by
  intro rem
  induction rem with
  | zero => intro addr cnt; rfl
  | succ r ih =>
    intro addr cnt
    rw [List.range'_succ]
    simp [countTrace, ih]

theorem fill_go_count (opt : Nat) (h1 : 4 ≤ opt) (h2 : opt ≤ 7)
    (fillv : Nat) : ∀ xs i cnt,
    spi_test_fill_tx_go opt fillv i cnt xs =
      .ok (countTraceXs (opt - 3) cnt xs) := by
  intro xs
  induction xs with
  | nil => intro i cnt; rfl
  | cons x rest ih =>
    intro i cnt
    by_cases hx : x.tx_buf = 0
    · simp [spi_test_fill_tx_go, countTraceXs, hx, ih]
    · simp [spi_test_fill_tx_go, countTraceXs, hx,
        fill_xfer_writes_count opt h1 h2, ih]

theorem countTraceXs_snd (w : Nat) : ∀ xs cnt,
    (countTraceXs w cnt xs).map Prod.snd =
      (List.range' cnt (tx_total xs)).map (countByte w) := by
  intro xs
  induction xs with
  | nil => intro cnt; rfl
  | cons x rest ih =>
    intro cnt
    by_cases hx : x.tx_buf = 0
    · simp [countTraceXs, tx_total, hx, ih]
    · simp only [countTraceXs, tx_total, if_neg hx, List.map_append,
        countTrace_snd, ih]
      rw [range'_split x.len cnt (tx_total rest), List.map_append]

/-- C2: in the running-counter fill modes (FILL_COUNT_8/16/24/32, options
4..7 of width w = opt-3), the fill pass succeeds and the byte written at
global position k across the whole transfer set is the (k mod w)-th
little-endian byte slice of k itself, independent of how the set is cut
into transfers: the counter advances exactly once per written byte and
never resets at a transfer boundary.  In particular two consecutive
1-byte transfers filled with FILL_COUNT_8 receive bytes 0 and 1. -/
theorem c2_fill_count_continuity :
    (∀ opt fillv xfers, 4 ≤ opt → opt ≤ 7 →
      ∃ tr, spi_test_fill_tx opt fillv xfers = .ok tr ∧
        tr.map Prod.snd =
          (List.range (tx_total xfers)).map (countByte (opt - 3))) ∧
    (∀ fillv a b, a ≠ 0 → b ≠ 0 →
      spi_test_fill_tx 4 fillv [⟨1, a, 0⟩, ⟨1, b, 0⟩] = .ok [(a, 0), (b, 1)]) := by
  constructor
  · intro opt fillv xfers h1 h2
    refine ⟨countTraceXs (opt - 3) 0 xfers, ?_, ?_⟩
    · exact fill_go_count opt h1 h2 fillv xfers 0 0
    · rw [countTraceXs_snd, List.range_eq_range']
  · intro fillv a b ha hb
    simp [spi_test_fill_tx, spi_test_fill_tx_go, fill_xfer_writes,
      fill_byte, ha, hb]

/-- C2 witness: a concrete counter-mode fill, and the 0,1 bytes of two
consecutive 1-byte transfers. -/
theorem c2_fill_count_continuity_witness :
    (∃ tr, spi_test_fill_tx 4 0 [⟨2, 50, 0⟩, ⟨3, 90, 7⟩] = .ok tr ∧
      tr.map Prod.snd =
        (List.range (tx_total [⟨2, 50, 0⟩, ⟨3, 90, 7⟩])).map (countByte 1)) ∧
    spi_test_fill_tx 4 0 [⟨1, 50, 0⟩, ⟨1, 90, 0⟩] = .ok [(50, 0), (90, 1)] :=
  ⟨c2_fill_count_continuity.1 4 0 [⟨2, 50, 0⟩, ⟨3, 90, 7⟩]
      (by decide) (by decide),
   c2_fill_count_continuity.2 0 50 90 (by decide) (by decide)⟩

theorem fill_byte_supported (opt : Nat) (h : opt < 12 ∨ opt = 16)
    (fillv cnt j i : Nat) : ∃ b, fill_byte opt fillv cnt j i = some b := by
  rcases h with h | h
  · interval_cases opt <;> exact ⟨_, rfl⟩
  · subst h; exact ⟨_, rfl⟩

theorem fill_xfer_writes_supported (opt : Nat) (h : opt < 12 ∨ opt = 16)
    (fillv i : Nat) : ∀ rem addr j cnt,
    ∃ tr, fill_xfer_writes opt fillv i addr j cnt rem = some tr ∧
      tr.map Prod.fst = List.range' addr rem := by
  intro rem
  induction rem with
  | zero => intro addr j cnt; exact ⟨[], rfl, rfl⟩
  | succ r ih =>
    intro addr j cnt
    obtain ⟨b, hb⟩ := fill_byte_supported opt h fillv cnt j i
    obtain ⟨tr, htr, hmap⟩ := ih (addr + 1) (j + 1) (cnt + 1)
    refine ⟨(addr, b) :: tr, ?_, ?_⟩
    · simp [fill_xfer_writes, hb, htr]
    · rw [List.range'_succ]
      simp [hmap]

/-- C4: for every transfer list and supported fill option, the fill pass
succeeds; transfers with no transmit buffer are skipped entirely (no byte
of any buffer is written for them, and they never cause an error), while
every transfer with a transmit buffer has all of its len bytes written,
at addresses tx_buf .. tx_buf+len-1 in order. -/
theorem c4_fill_skips_null_tx :
    ∀ opt fillv xfers, opt < 12 ∨ opt = 16 →
      ∃ tr, spi_test_fill_tx opt fillv xfers = .ok tr ∧
        tr.map Prod.fst = xfers.flatMap
          (fun x => if x.tx_buf = 0 then [] else List.range' x.tx_buf x.len) := by
  intro opt fillv xfers h
  suffices hgo : ∀ xs i cnt, ∃ tr,
      spi_test_fill_tx_go opt fillv i cnt xs = .ok tr ∧
      tr.map Prod.fst = xs.flatMap
        (fun x => if x.tx_buf = 0 then [] else List.range' x.tx_buf x.len) by
    exact hgo xfers 0 0
  intro xs
  induction xs with
  | nil => intro i cnt; exact ⟨[], rfl, rfl⟩
  | cons x rest ih =>
    intro i cnt
    by_cases hx : x.tx_buf = 0
    · obtain ⟨tr, htr, hmap⟩ := ih (i + 1) cnt
      refine ⟨tr, ?_, ?_⟩
      · simp [spi_test_fill_tx_go, hx, htr]
      · simp [hx, hmap]
    · obtain ⟨tr1, htr1, hmap1⟩ :=
        fill_xfer_writes_supported opt h fillv i x.len x.tx_buf 0 cnt
      obtain ⟨tr2, htr2, hmap2⟩ := ih (i + 1) (cnt + x.len)
      refine ⟨tr1 ++ tr2, ?_, ?_⟩
      · simp [spi_test_fill_tx_go, hx, htr1, htr2]
      · simp [hx, hmap1, hmap2]

/-- C4 witness: a null-tx transfer between two real ones is skipped, the
others are fully written. -/
theorem c4_fill_skips_null_tx_witness :
    ∃ tr, spi_test_fill_tx 0 171 [⟨2, 40, 0⟩, ⟨5, 0, 9⟩, ⟨3, 80, 0⟩] = .ok tr ∧
      tr.map Prod.fst =
        [⟨2, 40, 0⟩, ⟨5, 0, 9⟩, (⟨3, 80, 0⟩ : SpiTransfer)].flatMap
          (fun x => if x.tx_buf = 0 then [] else List.range' x.tx_buf x.len) :=
  c4_fill_skips_null_tx 0 171 [⟨2, 40, 0⟩, ⟨5, 0, 9⟩, ⟨3, 80, 0⟩]
    (Or.inl (by decide))

theorem check_pair_from_ok_iff (tx rx : List Nat) : ∀ rem i,
    check_pair_from tx rx i rem = .ok () ↔
      ∀ k, i ≤ k → k < i + rem → tx.getD k 0 = rx.getD k 0 := by
  intro rem
  induction rem with
  | zero =>
    intro i
    simp [check_pair_from]
    omega
  | succ r ih =>
    intro i
    by_cases h : tx.getD i 0 = rx.getD i 0
    · rw [check_pair_from, if_neg (by simpa using h), ih]
      constructor
      · intro hall k hk1 hk2
        rcases Nat.eq_or_lt_of_le hk1 with he | hl
        · exact he ▸ h
        · exact hall k hl (by omega)
      · intro hall k hk1 hk2
        exact hall k (by omega) (by omega)
    · rw [check_pair_from, if_pos (by simpa using h)]
      constructor
      · intro hcon; cases hcon
      · intro hall
        exact absurd (hall i (le_refl i) (by omega)) h

theorem check_pair_from_first_err (tx rx : List Nat) : ∀ rem i i0,
    i ≤ i0 → i0 < i + rem → tx.getD i0 0 ≠ rx.getD i0 0 →
    (∀ j, i ≤ j → j < i0 → tx.getD j 0 = rx.getD j 0) →
    check_pair_from tx rx i rem =
      .error (.mismatch i0 (tx.getD i0 0) (rx.getD i0 0)) := by
  intro rem
  induction rem with
  | zero => intro i i0 h1 h2; omega
  | succ r ih =>
    intro i i0 h1 h2 hne hmin
    by_cases h : tx.getD i 0 = rx.getD i 0
    · have hi0 : i < i0 := by
        rcases Nat.eq_or_lt_of_le h1 with he | hl
        · rw [he] at h; exact absurd h hne
        · exact hl
      rw [check_pair_from, if_neg (by simpa using h)]
      exact ih (i + 1) i0 (by omega) (by omega) hne
        (fun j hj1 hj2 => hmin j (by omega) hj2)
    · have hi0 : i0 = i := by
        rcases Nat.eq_or_lt_of_le h1 with he | hl
        · omega
        · exact absurd (hmin i (le_refl i) hl) h
      rw [check_pair_from, if_pos (by simpa using h), hi0]

theorem check_rx_from_ok_iff (rx : List Nat) (txb : Nat) : ∀ rem i,
    check_rx_from rx txb i rem = .ok () ↔
      ∀ k, i ≤ k → k < i + rem → rx.getD k 0 = txb := by
  intro rem
  induction rem with
  | zero =>
    intro i
    simp [check_rx_from]
    omega
  | succ r ih =>
    intro i
    by_cases h : rx.getD i 0 = txb
    · rw [check_rx_from, if_neg (by simpa using h), ih]
      constructor
      · intro hall k hk1 hk2
        rcases Nat.eq_or_lt_of_le hk1 with he | hl
        · exact he ▸ h
        · exact hall k hl (by omega)
      · intro hall k hk1 hk2
        exact hall k (by omega) (by omega)
    · rw [check_rx_from, if_pos (by simpa using h)]
      constructor
      · intro hcon; cases hcon
      · intro hall
        exact absurd (hall i (le_refl i) (by omega)) h

theorem check_loopback_singleton (x : LoopXfer) :
    spi_test_check_loopback_result [x] = check_xfer x := by
  rw [spi_test_check_loopback_result]
  rcases hc : check_xfer x with e | u
  · rfl
  · rw [spi_test_check_loopback_result]

/-- C6: for a transfer carrying both a transmit and a receive buffer of
its declared length, the loopback checker succeeds iff every byte from
index 1 to len-1 agrees between the two buffers (byte 0 is exempt); at
the first disagreeing index it fails with a mismatch error carrying that
index and both byte values.  Concretely, tx=[00,11,22] vs
rx=[FF,11,22] passes while rx=[FF,11,23] fails at index 2. -/
theorem c6_loopback_tx_rx :
    (∀ (len : Nat) (tx rx : List Nat), tx.length = len → rx.length = len →
      ((spi_test_check_loopback_result [⟨len, some tx, some rx⟩] = .ok ()) ↔
        ∀ i, 1 ≤ i → i < len → tx.getD i 0 = rx.getD i 0) ∧
      (∀ i0, 1 ≤ i0 → i0 < len → tx.getD i0 0 ≠ rx.getD i0 0 →
        (∀ j, 1 ≤ j → j < i0 → tx.getD j 0 = rx.getD j 0) →
        spi_test_check_loopback_result [⟨len, some tx, some rx⟩] =
          .error (.mismatch i0 (tx.getD i0 0) (rx.getD i0 0)))) ∧
    spi_test_check_loopback_result
      [⟨3, some [0x00, 0x11, 0x22], some [0xFF, 0x11, 0x22]⟩] = .ok () ∧
    spi_test_check_loopback_result
      [⟨3, some [0x00, 0x11, 0x22], some [0xFF, 0x11, 0x23]⟩] =
        .error (.mismatch 2 0x22 0x23) := by
  refine ⟨?_, rfl, rfl⟩
  intro len tx rx htx hrx
  constructor
  · rw [check_loopback_singleton, check_xfer]
    simp only
    rw [check_pair_from_ok_iff]
    constructor
    · intro hall i h1 h2
      exact hall i h1 (by omega)
    · intro hall k h1 h2
      exact hall k h1 (by omega)
  · intro i0 h1 h2 hne hmin
    rw [check_loopback_singleton, check_xfer]
    simp only
    exact check_pair_from_first_err tx rx (len - 1) 1 i0 h1 (by omega) hne hmin

/-- C6 witness: the two concrete loopback examples, plus the iff at a
concrete mismatch-free pair. -/
theorem c6_loopback_tx_rx_witness :
    (spi_test_check_loopback_result
      [⟨2, some [7, 9], some [8, 9]⟩] = .ok ()) ∧
    spi_test_check_loopback_result
      [⟨3, some [0x00, 0x11, 0x22], some [0xFF, 0x11, 0x22]⟩] = .ok () :=
  ⟨((c6_loopback_tx_rx.1 2 [7, 9] [8, 9] rfl rfl).1).2
      (by decide),
   c6_loopback_tx_rx.2.1⟩

/-- C7: for a pure-receive transfer (rx buffer, no tx buffer) of positive
length, the checker succeeds iff byte 0 is exactly 0x00 or 0xFF and every
later byte equals byte 0; otherwise it fails with an integrity error.
Concretely [00,00,00] passes, [05,05,05] fails on the idle byte, and
[FF,FF,00] fails at byte 2. -/
theorem c7_loopback_rx_only :
    (∀ (len : Nat) (rx : List Nat), rx.length = len → 1 ≤ len →
      ((spi_test_check_loopback_result [⟨len, none, some rx⟩] = .ok ()) ↔
        ((rx.getD 0 0 = 0x00 ∨ rx.getD 0 0 = 0xFF) ∧
          ∀ i, 1 ≤ i → i < len → rx.getD i 0 = rx.getD 0 0))) ∧
    spi_test_check_loopback_result
      [⟨3, none, some [0x00, 0x00, 0x00]⟩] = .ok () ∧
    spi_test_check_loopback_result
      [⟨3, none, some [0x05, 0x05, 0x05]⟩] = .error (.badIdle 0x05) ∧
    spi_test_check_loopback_result
      [⟨3, none, some [0xFF, 0xFF, 0x00]⟩] = .error (.mismatch 2 0xFF 0x00) := by
  refine ⟨?_, rfl, rfl, rfl⟩
  intro len rx hrx hlen
  rw [check_loopback_singleton, check_xfer]
  simp only
  by_cases hidle : rx.getD 0 0 = 0x00 ∨ rx.getD 0 0 = 0xFF
  · rw [if_pos hidle, check_rx_from_ok_iff]
    constructor
    · intro hall
      refine ⟨hidle, fun i h1 h2 => hall i h1 (by omega)⟩
    · intro hall k h1 h2
      exact hall.2 k h1 (by omega)
  · rw [if_neg hidle]
    constructor
    · intro hcon; cases hcon
    · intro hall; exact absurd hall.1 hidle

/-- C7 witness: applying the iff at a concrete all-idle buffer. -/
theorem c7_loopback_rx_only_witness :
    spi_test_check_loopback_result [⟨4, none, some [0xFF, 0xFF, 0xFF, 0xFF]⟩] =
      .ok () :=
  ((c7_loopback_rx_only.1 4 [0xFF, 0xFF, 0xFF, 0xFF] rfl (by decide)).2
    (by decide))

/-- C5 counterexample: the claim requires the unexpected-success error to
differ from the declared expected value, but with expected_return =
-EFAULT and an actual result of 0 the handler returns exactly -EFAULT,
the expected value itself. -/
theorem c5_counterexample :
    ¬ (spi_test_handle_result 0 (-EFAULT) ≠ 0 ∧
       spi_test_handle_result 0 (-EFAULT) ≠ -EFAULT) := by
  decide

/-- C5 (amended): matching results are overall success; a differing
non-zero result propagates verbatim; a differing zero result yields the
fixed non-zero code -EFAULT, which differs from the expected value
whenever the expected value is not -EFAULT itself. -/
theorem c5_handle_result (ret expected : Int) :
    (ret = expected → spi_test_handle_result ret expected = 0) ∧
    (ret ≠ expected → ret ≠ 0 → spi_test_handle_result ret expected = ret) ∧
    (ret = 0 → expected ≠ 0 →
      spi_test_handle_result ret expected = -EFAULT ∧
      spi_test_handle_result ret expected ≠ 0 ∧
      (expected ≠ -EFAULT → spi_test_handle_result ret expected ≠ expected)) := by
  refine ⟨?_, ?_, ?_⟩
  · intro h
    simp [spi_test_handle_result, h]
  · intro h1 h2
    simp [spi_test_handle_result, h1, h2]
  · intro h1 h2
    have hne : ¬ (ret = expected) := by rw [h1]; exact fun he => h2 he.symm
    rw [spi_test_handle_result, if_neg hne, h1]
    simp [EFAULT]
    intro h3
    omega

/-- C5 witness: the three regimes at concrete inputs, expecting -EINVAL. -/
theorem c5_handle_result_witness :
    spi_test_handle_result (-22) (-22) = 0 ∧
    spi_test_handle_result (-5) (-22) = -5 ∧
    spi_test_handle_result 0 (-22) = -EFAULT :=
  ⟨(c5_handle_result (-22) (-22)).1 rfl,
   (c5_handle_result (-5) (-22)).2.1 (by decide) (by decide),
   ((c5_handle_result 0 (-22)).2.2 rfl (by decide)).1⟩

/-- C10: in the non-default-point patching step, a transfer with a NULL
tx_buf keeps both its buffers unchanged — in particular a transfer with
a receive buffer but no transmit buffer is never shifted by rx_off —
while a transfer with a non-NULL tx_buf has tx_off added to tx_buf
(whatever the value of tx_off) and rx_off added to rx_buf. -/
theorem c10_patch_rx_gated_on_tx (len tx_off rx_off : Nat) (x : SpiTransfer) :
    (x.tx_buf = 0 →
      (patch_xfer len tx_off rx_off x).tx_buf = x.tx_buf ∧
      (patch_xfer len tx_off rx_off x).rx_buf = x.rx_buf) ∧
    (x.tx_buf ≠ 0 →
      (patch_xfer len tx_off rx_off x).tx_buf = x.tx_buf + tx_off ∧
      (patch_xfer len tx_off rx_off x).rx_buf = x.rx_buf + rx_off) := by
  constructor
  · intro h
    simp [patch_xfer, h]
  · intro h
    have ht : x.tx_buf + tx_off ≠ 0 := by omega
    simp [patch_xfer, h, ht]

/-- C10 witness: a pure-receive transfer is untouched by offsets, a
transfer with tx_buf gets both offsets applied (tx_off here 0). -/
theorem c10_patch_rx_gated_on_tx_witness :
    ((patch_xfer 5 3 7 ⟨1, 0, 9⟩).tx_buf = 0 ∧
     (patch_xfer 5 3 7 ⟨1, 0, 9⟩).rx_buf = 9) ∧
    ((patch_xfer 5 0 7 ⟨1, 2, 9⟩).tx_buf = 2 + 0 ∧
     (patch_xfer 5 0 7 ⟨1, 2, 9⟩).rx_buf = 9 + 7) :=
  ⟨(c10_patch_rx_gated_on_tx 5 3 7 ⟨1, 0, 9⟩).1 rfl,
   (c10_patch_rx_gated_on_tx 5 0 7 ⟨1, 2, 9⟩).2 (by decide)⟩

/-- C8: a test case declaring transfer_count at or above
SPI_TEST_MAX_TRANSFERS makes spi_test_run fail at once with -E2BIG and
an empty write trace — no translation is attempted and the buffers are
untouched; any smaller count passes the precondition and the run
proceeds to its iteration points. -/
theorem c8_too_many_transfers (dma : Nat) (execute : List SpiTransfer → Int)
    (gtx grx : Nat) (t : SpiTest) (txb rxb : Nat) :
    (SPI_TEST_MAX_TRANSFERS ≤ t.transfer_count →
      spi_test_run dma execute gtx grx t txb rxb = (-E2BIG, [])) ∧
    (t.transfer_count < SPI_TEST_MAX_TRANSFERS →
      spi_test_run dma execute gtx grx t txb rxb =
        run_points (spi_test_run_point execute gtx grx t txb rxb)
          (iteration_points dma t)) := by
  constructor
  · intro h
    rw [spi_test_run, if_pos h]
  · intro h
    rw [spi_test_run, if_neg (by omega)]

/-- C8 witness: a 4-transfer declaration is rejected with -E2BIG and no
writes, a 1-transfer declaration reaches the iteration loop. -/
theorem c8_too_many_transfers_witness :
    spi_test_run 0 (fun _ => 0) 0 0
      { iterate_len := [], iterate_tx_align := 0, iterate_rx_align := 0,
        expected_return := 0, transfer_count := 4,
        transfers := [⟨1, 0, 0⟩], fill := 0, fill_option := 0 } 0 0 =
      (-E2BIG, []) ∧
    spi_test_run 0 (fun _ => 0) 0 0
      { iterate_len := [], iterate_tx_align := 0, iterate_rx_align := 0,
        expected_return := 0, transfer_count := 1,
        transfers := [⟨1, 0, 0⟩], fill := 0, fill_option := 0 } 0 0 =
      run_points (spi_test_run_point (fun _ => 0) 0 0
        { iterate_len := [], iterate_tx_align := 0, iterate_rx_align := 0,
          expected_return := 0, transfer_count := 1,
          transfers := [⟨1, 0, 0⟩], fill := 0, fill_option := 0 } 0 0)
        (iteration_points 0
          { iterate_len := [], iterate_tx_align := 0, iterate_rx_align := 0,
            expected_return := 0, transfer_count := 1,
            transfers := [⟨1, 0, 0⟩], fill := 0, fill_option := 0 }) :=
  ⟨(c8_too_many_transfers 0 (fun _ => 0) 0 0 _ 0 0).1 (by decide),
   (c8_too_many_transfers 0 (fun _ => 0) 0 0 _ 0 0).2 (by decide)⟩

theorem run_points_ok_front {α : Type} (runOne : α → Int × List (Nat × Nat)) :
    ∀ (pre rest : List α), (∀ q ∈ pre, (runOne q).1 = 0) →
    run_points runOne (pre ++ rest) =
      ((run_points runOne rest).1,
        pre.flatMap (fun q => (runOne q).2) ++ (run_points runOne rest).2) := by
  intro pre
  induction pre with
  | nil =>
    intro rest h
    simp
  | cons q qs ih =>
    intro rest h
    have hq : (runOne q).1 = 0 := h q (by simp)
    rw [List.cons_append, run_points, if_neg (by simp [hq]),
      ih rest (fun u hu => h u (by simp [hu]))]
    simp

theorem run_points_first_err {α : Type} (runOne : α → Int × List (Nat × Nat))
    (pre : List α) (p : α) (post : List α)
    (hpre : ∀ q ∈ pre, (runOne q).1 = 0) (hp : (runOne p).1 ≠ 0) :
    run_points runOne (pre ++ p :: post) = run_points runOne (pre ++ [p]) ∧
    (run_points runOne (pre ++ p :: post)).1 = (runOne p).1 := by
  have h1 : run_points runOne (p :: post) = runOne p := by
    rw [run_points, if_pos hp]
  have h2 : run_points runOne [p] = runOne p := by
    rw [run_points, if_pos hp]
  rw [run_points_ok_front runOne pre (p :: post) hpre,
    run_points_ok_front runOne pre [p] hpre, h1, h2]
  simp

/-- C9: the iteration driver and the catalog walk both abort on the
first error: whenever the iteration points (in any enumeration order)
split as pre ++ p :: post with every point of pre succeeding and p
failing, the run equals the run of pre ++ [p] alone — the points after
p are never executed — and the overall result is exactly the first
error; and likewise for the catalog over its test cases. -/
theorem c9_abort_on_first_error :
    (∀ (execute : List SpiTransfer → Int) (gtx grx : Nat) (t : SpiTest)
        (txb rxb : Nat) (pre : List (Nat × Nat × Nat)) (p : Nat × Nat × Nat)
        (post : List (Nat × Nat × Nat)),
      (∀ q ∈ pre, (spi_test_run_point execute gtx grx t txb rxb q).1 = 0) →
      (spi_test_run_point execute gtx grx t txb rxb p).1 ≠ 0 →
      run_points (spi_test_run_point execute gtx grx t txb rxb)
          (pre ++ p :: post) =
        run_points (spi_test_run_point execute gtx grx t txb rxb)
          (pre ++ [p]) ∧
      (run_points (spi_test_run_point execute gtx grx t txb rxb)
          (pre ++ p :: post)).1 =
        (spi_test_run_point execute gtx grx t txb rxb p).1) ∧
    (∀ (dma : Nat) (execute : List SpiTransfer → Int) (gtx grx txb rxb : Nat)
        (pre : List SpiTest) (t : SpiTest) (post : List SpiTest),
      (∀ u ∈ pre, (spi_test_run dma execute gtx grx u txb rxb).1 = 0) →
      (spi_test_run dma execute gtx grx t txb rxb).1 ≠ 0 →
      spi_test_probe_run dma execute gtx grx txb rxb (pre ++ t :: post) =
        spi_test_probe_run dma execute gtx grx txb rxb (pre ++ [t]) ∧
      (spi_test_probe_run dma execute gtx grx txb rxb (pre ++ t :: post)).1 =
        (spi_test_run dma execute gtx grx t txb rxb).1) := by
  constructor
  · intro execute gtx grx t txb rxb pre p post hpre hp
    exact run_points_first_err _ pre p post hpre hp
  · intro dma execute gtx grx txb rxb pre t post hpre hp
    exact run_points_first_err _ pre t post hpre hp

/-- C9 witness: a test case whose only transfer points at an
untranslatable address fails its first iteration point with -EINVAL; a
later point, and a later test case, are never run. -/
theorem c9_abort_on_first_error_witness :
    (run_points (spi_test_run_point (fun _ => 0) 0 0
        { iterate_len := [], iterate_tx_align := 0, iterate_rx_align := 0,
          expected_return := 0, transfer_count := 1,
          transfers := [⟨1, 5, 0⟩], fill := 0, fill_option := 0 } 0 0)
        ([] ++ (0, 0, 0) :: [(1, 1, 1)]) =
      run_points (spi_test_run_point (fun _ => 0) 0 0
        { iterate_len := [], iterate_tx_align := 0, iterate_rx_align := 0,
          expected_return := 0, transfer_count := 1,
          transfers := [⟨1, 5, 0⟩], fill := 0, fill_option := 0 } 0 0)
        ([] ++ [(0, 0, 0)])) ∧
    (spi_test_probe_run 0 (fun _ => 0) 0 0 0 0
        ([] ++ { iterate_len := [], iterate_tx_align := 0,
                 iterate_rx_align := 0, expected_return := 0,
                 transfer_count := 1, transfers := [⟨1, 5, 0⟩], fill := 0,
                 fill_option := 0 } ::
          [{ iterate_len := [], iterate_tx_align := 0, iterate_rx_align := 0,
             expected_return := 0, transfer_count := 1,
             transfers := [⟨1, 0, 0⟩], fill := 0, fill_option := 0 }]) =
      spi_test_probe_run 0 (fun _ => 0) 0 0 0 0
        ([] ++ [{ iterate_len := [], iterate_tx_align := 0,
                  iterate_rx_align := 0, expected_return := 0,
                  transfer_count := 1, transfers := [⟨1, 5, 0⟩], fill := 0,
                  fill_option := 0 }])) :=
  ⟨(c9_abort_on_first_error.1 (fun _ => 0) 0 0
      { iterate_len := [], iterate_tx_align := 0, iterate_rx_align := 0,
        expected_return := 0, transfer_count := 1,
        transfers := [⟨1, 5, 0⟩], fill := 0, fill_option := 0 } 0 0
      [] (0, 0, 0) [(1, 1, 1)] (by simp) (by decide)).1,
   (c9_abort_on_first_error.2 0 (fun _ => 0) 0 0 0 0
      [] { iterate_len := [], iterate_tx_align := 0, iterate_rx_align := 0,
           expected_return := 0, transfer_count := 1,
           transfers := [⟨1, 5, 0⟩], fill := 0, fill_option := 0 }
      [{ iterate_len := [], iterate_tx_align := 0, iterate_rx_align := 0,
         expected_return := 0, transfer_count := 1,
         transfers := [⟨1, 0, 0⟩], fill := 0, fill_option := 0 }]
      (by simp) (by decide)).1⟩

/-- C3 counterexample: a case whose length axis holds exactly 16 and 32
with both alignment axes unconfigured enumerates three iteration
points — the unset pass (len 0) plus one per configured value — not the
two points the claim asserts. -/
theorem c3_counterexample :
    iteration_points 0
      { iterate_len := [16, 32], iterate_tx_align := 0, iterate_rx_align := 0,
        expected_return := 0, transfer_count := 1,
        transfers := [⟨1, 0, 0⟩], fill := 0, fill_option := 0 } =
      [(0, 0, 0), (16, 0, 0), (32, 0, 0)] ∧
    (iteration_points 0
      { iterate_len := [16, 32], iterate_tx_align := 0, iterate_rx_align := 0,
        expected_return := 0, transfer_count := 1,
        transfers := [⟨1, 0, 0⟩], fill := 0, fill_option := 0 }).length ≠ 2 := by
  constructor
  · rfl
  · decide

/-- C3 (amended): a case whose configured length values are exactly
16, 32 and whose alignment axes are unconfigured executes exactly 3
iteration points: one with the length axis unset (len 0, the transfer's
own declared length) plus one per non-zero configured value; when the
transfer-count precondition passes, spi_test_run runs exactly those
three points in order. -/
theorem c3_amended_iteration_count (dma : Nat) (t : SpiTest)
    (htx : t.iterate_tx_align = 0) (hrx : t.iterate_rx_align = 0)
    (hlen : (t.iterate_len.take SPI_TEST_MAX_ITERATE).takeWhile
      (fun v => v != 0) = [16, 32]) :
    iteration_points dma t = [(0, 0, 0), (16, 0, 0), (32, 0, 0)] ∧
    (iteration_points dma t).length = 3 ∧
    (t.transfer_count < SPI_TEST_MAX_TRANSFERS →
      ∀ (execute : List SpiTransfer → Int) (gtx grx txb rxb : Nat),
      spi_test_run dma execute gtx grx t txb rxb =
        run_points (spi_test_run_point execute gtx grx t txb rxb)
          [(0, 0, 0), (16, 0, 0), (32, 0, 0)]) := by
  have hpts : iteration_points dma t = [(0, 0, 0), (16, 0, 0), (32, 0, 0)] := by
    rw [iteration_points, iterate_values, hlen, htx, hrx]
    simp [alignment_values]
    decide
  refine ⟨hpts, by simp [hpts], ?_⟩
  intro hcount execute gtx grx txb rxb
  rw [spi_test_run, if_neg (by omega), hpts]

/-- C3 witness: the amended count at a concrete test case. -/
theorem c3_amended_iteration_count_witness :
    iteration_points 7
      { iterate_len := [16, 32], iterate_tx_align := 0, iterate_rx_align := 0,
        expected_return := 0, transfer_count := 1,
        transfers := [⟨1, 0, 0⟩], fill := 0, fill_option := 0 } =
      [(0, 0, 0), (16, 0, 0), (32, 0, 0)] ∧
    spi_test_run 7 (fun _ => 0) 0 0
      { iterate_len := [16, 32], iterate_tx_align := 0, iterate_rx_align := 0,
        expected_return := 0, transfer_count := 1,
        transfers := [⟨1, 0, 0⟩], fill := 0, fill_option := 0 } 0 0 =
      run_points (spi_test_run_point (fun _ => 0) 0 0
        { iterate_len := [16, 32], iterate_tx_align := 0,
          iterate_rx_align := 0, expected_return := 0, transfer_count := 1,
          transfers := [⟨1, 0, 0⟩], fill := 0, fill_option := 0 } 0 0)
        [(0, 0, 0), (16, 0, 0), (32, 0, 0)] :=
  ⟨(c3_amended_iteration_count 7 _ rfl rfl (by decide)).1,
   (c3_amended_iteration_count 7 _ rfl rfl (by decide)).2.2
      (by decide) (fun _ => 0) 0 0 0 0⟩
